import Mathlib

/-
Shallow embedding of src/rtsp-agents/rtsp-health-checker.py.

The script is a reconciliation loop over an inventory of RTSP cameras:
it lists camera ids from a backend, fetches each record, probes the RTSP
endpoint with cv2, persists an image and a metadata JSON file per camera,
and reports the resulting status back with an HTTP PUT.

External effects (HTTP responses, the cv2 probe, raising local writes)
are modelled by an explicit environment `Env`; the local filesystem is a
keyed store `FS`; the observable actions of one run (probe attempts,
file writes, PUT requests) are collected in a trace of `Event`s.
-/

namespace RtspHealthChecker

/-- A captured video frame, abstracted to an opaque token (the actual
pixel data is irrelevant to the control flow of the script). -/
abbrev Frame := Nat

/-- Abstraction of writing the frame as a jpg, reading the bytes back and
base64-encoding them (`base64.b64encode` over the file contents): an
opaque injective encoding of the frame. -/
def base64encode (f : Frame) : String := toString f

/-- Line 17-26 of the source: the status vocabulary. -/
def camera_statuses : List String :=
  ["OPEN", "UNAUTHORIZED", "NOT_FOUND", "UNCONNECTED"]

/-- A camera record as consumed by the script (the dict fields the code
actually reads: cameraId, rtspUrl, countryCode, countryName, city,
labels, status). -/
structure Camera where
  cameraId : String
  rtspUrl : String
  countryCode : String
  countryName : String
  city : String
  labels : List String
  status : String
deriving DecidableEq, Repr

/-- The `camera_to_save` dict written to the per-camera JSON metadata
file (lines 158-165 and 176-183 of the source). -/
structure MetaRecord where
  countryCode : String
  countryName : String
  city : String
  rtspUrl : String
  cameraId : String
  status : String
deriving DecidableEq, Repr

/-- Contents of a local artifact file: either the jpg image or the JSON
metadata record. -/
inductive FileContent where
  | image (f : Frame)
  | meta (m : MetaRecord)
deriving DecidableEq, Repr

/-- The `updated_camera` dict sent to `update_camera` (its possible keys
across both branches of `health_check`, each optional). -/
structure PutBody where
  status : String
  url : Option String
  rtspUrl : Option String
  base64ImageData : Option String
  labels : Option (List String)
deriving DecidableEq, Repr

/-- Outcome of `GET <backend>/cameras/ids`: success with a decoded id
list, a non-success HTTP response, a success whose body fails to decode
(`resp.json()` raises), or a transport exception. -/
inductive ListResp where
  | ok (ids : List String)
  | notOk (code : Nat) (text : String)
  | badBody (msg : String)
  | exn (msg : String)
deriving DecidableEq, Repr

/-- Outcome of `GET <backend>/cameras?...`: success with a decoded
camera record, a non-success HTTP response, a malformed body, or a
transport exception. -/
inductive FetchResp where
  | ok (camera : Camera)
  | notOk (code : Nat) (text : String)
  | badBody (msg : String)
  | exn (msg : String)
deriving DecidableEq, Repr

/-- Outcome of `cv2.VideoCapture(url).read()`: a frame with
is_connected true, no frame (is_connected false), or an exception raised
during construction or read. -/
inductive ProbeOutcome where
  | frame (f : Frame)
  | noFrame
  | exn (msg : String)
deriving DecidableEq, Repr

/-- Outcome of `requests.put(... /cameras/import ...)`: success (with
the truthiness of the decoded response body, which is what the caller
tests), non-success, or an exception. -/
inductive PutResp where
  | ok (bodyTruthy : Bool)
  | notOk (code : Nat) (text : String)
  | exn (msg : String)
deriving DecidableEq, Repr

/-- Observable actions of a run: a probe attempt on an RTSP url, a write
of an image file, a write of a metadata file, and a PUT report to the
backend. -/
inductive Event where
  | probeAttempt (url : String)
  | writeImage (name : String) (f : Frame)
  | writeMeta (name : String) (m : MetaRecord)
  | putCamera (url : String) (body : PutBody)
deriving DecidableEq, Repr

/-- The external world one cycle runs against: HTTP responses keyed by
request url, probe outcomes keyed by RTSP url, whether each local write
raises (keyed by file name), and PUT responses keyed by request body. -/
structure Env where
  listResp : String → ListResp
  fetchResp : String → FetchResp
  probe : String → ProbeOutcome
  imwriteRaises : String → Bool
  openImageRaises : String → Bool
  metaWriteRaises : String → Bool
  putResp : PutBody → PutResp

/-- The local output directory as a keyed file store. -/
structure FS where
  files : List (String × FileContent)
deriving DecidableEq, Repr

/-- An empty output directory. -/
def FS.empty : FS := ⟨[]⟩

/-- Writing a file overwrites any previous file of the same name
(open(..., "w") / cv2.imwrite truncate and replace). -/
def FS.write (fs : FS) (name : String) (c : FileContent) : FS :=
  ⟨(name, c) :: fs.files.filter (fun p => p.1 ≠ name)⟩

/-- Reading a file by name. -/
def FS.read (fs : FS) (name : String) : Option FileContent :=
  (fs.files.find? (fun p => p.1 = name)).map Prod.snd

/-- Number of directory entries carrying a given file name. -/
def FS.count (fs : FS) (name : String) : Nat :=
  (fs.files.filter (fun p => p.1 = name)).length

/-- The client object: lines 102-108 of the source (the requests Session
is part of `Env`). -/
structure RtspBackendClient where
  rtsp_backend_url : String
  output_dir : String
deriving DecidableEq, Repr

/-- Python truthiness of an optional string argument (None and the empty
string are falsy). -/
def truthyStr : Option String → Bool
  | none => false
  | some s => !s.isEmpty

/-- The url built by `get_camera` (lines 112-116). -/
def RtspBackendClient.fetchUrl (self : RtspBackendClient)
    (camera_id camera_rtsp_url : Option String) : String :=
  let url := self.rtsp_backend_url ++ "/cameras"
  let url := if truthyStr camera_id then url ++ "?id=" ++ camera_id.getD "" else url
  if truthyStr camera_rtsp_url then url ++ "?rtspUrl=" ++ camera_rtsp_url.getD "" else url

/-- Lines 109-126: `get_camera`. Raises (outside the try block) when
both arguments are truthy; otherwise returns the decoded record on a
success response and None (here `Except.ok none`) on a non-success
response, a malformed body, or a transport exception. -/
def RtspBackendClient.get_camera (self : RtspBackendClient) (env : Env)
    (camera_id camera_rtsp_url : Option String) : Except String (Option Camera) :=
  if truthyStr camera_id && truthyStr camera_rtsp_url then
    Except.error "Stop doing that."
  else
    match env.fetchResp (self.fetchUrl camera_id camera_rtsp_url) with
    | FetchResp.ok camera => Except.ok (some camera)
    | FetchResp.notOk _ _ => Except.ok none
    | FetchResp.badBody _ => Except.ok none
    | FetchResp.exn _ => Except.ok none

/-- The url used by `get_all_camera_ids` (line 130). -/
def RtspBackendClient.listUrl (self : RtspBackendClient) : String :=
  self.rtsp_backend_url ++ "/cameras/ids"

/-- Lines 128-139: `get_all_camera_ids`. Returns the decoded id list on
success; on a non-success response, a malformed body, or a transport
exception it prints and falls through, returning None (not an empty
list). -/
def RtspBackendClient.get_all_camera_ids (self : RtspBackendClient) (env : Env) :
    Option (List String) :=
  match env.listResp self.listUrl with
  | ListResp.ok ids => some ids
  | ListResp.notOk _ _ => none
  | ListResp.badBody _ => none
  | ListResp.exn _ => none

/-- Lines 191-192: `update_camera` first copies rtspUrl into url when
the body has a rtspUrl key and no url key. -/
def normalizePutBody (camera : PutBody) : PutBody :=
  if camera.rtspUrl.isSome && camera.url.isNone then
    { camera with url := camera.rtspUrl }
  else camera

/-- How `update_camera` turns the PUT response into its return value:
the decoded body on a success response, None otherwise. -/
def putResultOf : PutResp → Option Bool
  | PutResp.ok t => some t
  | PutResp.notOk _ _ => none
  | PutResp.exn _ => none

/-- Lines 189-200: `update_camera`. Note the PUT goes to the
module-global `rtsp_backend_url` (line 208, modelled by the explicit
parameter `global_url`), not to `self.rtsp_backend_url`. All errors are
caught; the method returns None on any failure. -/
def RtspBackendClient.update_camera (self : RtspBackendClient) (global_url : String)
    (env : Env) (camera : PutBody) : Option Bool × List Event :=
  let camera := normalizePutBody camera
  (putResultOf (env.putResp camera),
   [Event.putCamera (global_url ++ "/cameras/import") camera])

/-- The per-camera image file name `{output_dir}/{cameraId}.jpg`. -/
def imgFileName (self : RtspBackendClient) (camera : Camera) : String :=
  self.output_dir ++ "/" ++ camera.cameraId ++ ".jpg"

/-- The per-camera metadata file name `{output_dir}/{cameraId}.json`. -/
def metaFileName (self : RtspBackendClient) (camera : Camera) : String :=
  self.output_dir ++ "/" ++ camera.cameraId ++ ".json"

/-- The metadata record written for a camera with a given resulting
status. -/
def metaOf (camera : Camera) (status : String) : MetaRecord :=
  { countryCode := camera.countryCode, countryName := camera.countryName,
    city := camera.city, rtspUrl := camera.rtspUrl,
    cameraId := camera.cameraId, status := status }

/-- The `updated_camera` body of the is_connected branch
(lines 152-156). -/
def openPutBody (camera : Camera) (f : Frame) : PutBody :=
  { status := "OPEN", url := some camera.rtspUrl, rtspUrl := none,
    base64ImageData := some (base64encode f), labels := none }

/-- The `updated_camera` body of the not-connected branch
(lines 169-173). -/
def unconnectedPutBody (camera : Camera) : PutBody :=
  { status := "UNCONNECTED", url := some camera.rtspUrl, rtspUrl := none,
    base64ImageData := none, labels := some camera.labels }

/-- Lines 141-187: the `health_check` method. Everything after the
rtspUrl lookup sits in one try block whose except clause only prints, so
any raise (probe exception, or a raising local write, modelled by the
Env flags) abandons the rest of the body, keeps the files written so
far, and returns None. Returns the new file store, the event trace, and
the value returned to the caller (`update_camera` result, or None). -/
def RtspBackendClient.health_check (self : RtspBackendClient) (global_url : String)
    (env : Env) (fs : FS) (camera : Camera) : FS × List Event × Option Bool :=
  let camera_url := camera.rtspUrl
  match env.probe camera_url with
  | ProbeOutcome.exn _ =>
      (fs, [Event.probeAttempt camera_url], none)
  | ProbeOutcome.frame frame =>
      let img_file_name := imgFileName self camera
      if env.imwriteRaises img_file_name then
        (fs, [Event.probeAttempt camera_url], none)
      else
        let fs1 := fs.write img_file_name (FileContent.image frame)
        if env.openImageRaises img_file_name then
          (fs1, [Event.probeAttempt camera_url,
                 Event.writeImage img_file_name frame], none)
        else
          let updated_camera := openPutBody camera frame
          let meta_file_name := metaFileName self camera
          if env.metaWriteRaises meta_file_name then
            (fs1, [Event.probeAttempt camera_url,
                   Event.writeImage img_file_name frame], none)
          else
            let camera_to_save := metaOf camera updated_camera.status
            let fs2 := fs1.write meta_file_name (FileContent.meta camera_to_save)
            let put := self.update_camera global_url env updated_camera
            (fs2, [Event.probeAttempt camera_url,
                   Event.writeImage img_file_name frame,
                   Event.writeMeta meta_file_name camera_to_save] ++ put.2,
             put.1)
  | ProbeOutcome.noFrame =>
      let updated_camera := unconnectedPutBody camera
      let meta_file_name := metaFileName self camera
      if env.metaWriteRaises meta_file_name then
        (fs, [Event.probeAttempt camera_url], none)
      else
        let camera_to_save := metaOf camera "UNCONNECTED"
        let fs1 := fs.write meta_file_name (FileContent.meta camera_to_save)
        let put := self.update_camera global_url env updated_camera
        (fs1, [Event.probeAttempt camera_url,
               Event.writeMeta meta_file_name camera_to_save] ++ put.2,
         put.1)

/-- Truthiness of the value `client.health_check` hands back to the loop
(`is_updated`): truthy exactly when the PUT succeeded with a truthy
decoded body. -/
def isUpdatedTruthy : Option Bool → Bool
  | some t => t
  | none => false

/-- Lines 212-223: the module-level `health_check` loop. Processes the
cameras strictly in order, one at a time, logging a completed/failed
line per camera (modelled as the list of `is_updated` truthiness
values). -/
def health_check_all (global_url : String) (client : RtspBackendClient) (env : Env)
    (fs : FS) : List Camera → FS × List Event × List Bool
  | [] => (fs, [], [])
  | camera :: rest =>
      let step := client.health_check global_url env fs camera
      let next := health_check_all global_url client env step.1 rest
      (next.1, step.2.1 ++ next.2.1, isUpdatedTruthy step.2.2 :: next.2.2)

/-- Lines 233-238: the fetch loop of the cycle; collects the truthy
results of `get_camera` over the listed ids, in order, skipping falsy
ones. A raise from `get_camera` would propagate (it cannot on these
call sites, which pass a single id). -/
def fetch_cameras (client : RtspBackendClient) (env : Env) :
    List String → Except String (List Camera)
  | [] => Except.ok []
  | id :: rest =>
      match client.get_camera env (some id) none with
      | Except.error e => Except.error e
      | Except.ok res =>
          match fetch_cameras client env rest with
          | Except.error e => Except.error e
          | Except.ok cams =>
              Except.ok (match res with
                         | some camera => camera :: cams
                         | none => cams)

/-- Lines 226-242: one cycle. When `get_all_camera_ids` returns None
(any listing failure), the code logs "No cameras have been downloaded"
and then runs `for i, camera_id in enumerate(camera_ids)` over None,
which raises a TypeError that propagates out of the cycle. The
`threads_limit` argument is accepted and never used. -/
def download_cameras_and_do_health_check {T : Type} (global_url : String)
    (client : RtspBackendClient) (threads_limit : T) (env : Env) (fs : FS) :
    Except String (FS × List Event × List Bool) :=
  match client.get_all_camera_ids env with
  | none => Except.error "TypeError: NoneType object is not iterable"
  | some camera_ids =>
      match fetch_cameras client env camera_ids with
      | Except.error e => Except.error e
      | Except.ok cameras =>
          Except.ok (health_check_all global_url client env fs cameras)

/-- The status strings carried by an event, when it has one. -/
def eventStatuses : Event → List String
  | Event.writeMeta _ m => [m.status]
  | Event.putCamera _ b => [b.status]
  | _ => []

/- ### File-store lemmas -/

theorem List.filter_ne_filter_eq_nil (l : List (String × FileContent)) (n : String) :
    (l.filter (fun p => p.1 ≠ n)).filter (fun p => p.1 = n) = [] := by
  induction l with
  | nil => rfl
  | cons a l ih =>
      by_cases h : a.1 = n
      · simp [List.filter, h, ih]
      · simp [List.filter, h, ih]

theorem FS.count_write_self (fs : FS) (n : String) (c : FileContent) :
    (fs.write n c).count n = 1 := by
  simp [FS.write, FS.count, List.filter, List.filter_ne_filter_eq_nil]

theorem filter_and_not_eq (n m : String) (hnm : n ≠ m) :
    ∀ l : List (String × FileContent),
      l.filter (fun p => decide (p.1 = m) && !decide (p.1 = n))
        = l.filter (fun p => p.1 = m) := by
  intro l
  induction l with
  | nil => rfl
  | cons a l ih =>
      by_cases hm : a.1 = m
      · have hn : ¬ a.1 = n := fun hh => hnm (hh ▸ hm)
        have hmn : ¬ m = n := fun hh => hnm hh.symm
        simp [List.filter_cons, hm, hn, hmn, ih]
      · simp [List.filter_cons, hm, ih]

theorem FS.count_write_other (fs : FS) (n m : String) (c : FileContent) (hnm : n ≠ m) :
    (fs.write n c).count m = fs.count m := by
  have hm : ¬ n = m := hnm
  simp [FS.write, FS.count, List.filter_filter, hm, decide_not]
  exact congrArg List.length (filter_and_not_eq n m hnm fs.files)

theorem FS.read_write_self (fs : FS) (n : String) (c : FileContent) :
    (fs.write n c).read n = some c := by
  simp [FS.write, FS.read, List.find?]

theorem find_not_and_eq (n m : String) (hnm : n ≠ m) :
    ∀ l : List (String × FileContent),
      l.find? (fun p => !decide (p.1 = n) && decide (p.1 = m))
        = l.find? (fun p => p.1 = m) := by
  intro l
  induction l with
  | nil => rfl
  | cons a l ih =>
      by_cases hm : a.1 = m
      · have hn : ¬ a.1 = n := fun hh => hnm (hh ▸ hm)
        have hmn : ¬ m = n := fun hh => hnm hh.symm
        simp [List.find?_cons, hm, hn, hmn]
      · by_cases hn : a.1 = n
        · simp [List.find?_cons, hm, hn, hnm, ih]
        · simp [List.find?_cons, hm, hn, ih]

theorem FS.read_write_other (fs : FS) (n m : String) (c : FileContent) (hnm : n ≠ m) :
    (fs.write n c).read m = fs.read m := by
  have hm : ¬ n = m := hnm
  simp [FS.write, FS.read, List.find?, hm, decide_not]
  rw [find_not_and_eq n m hnm fs.files]

theorem append_jpg_ne_append_json (s : String) : s ++ ".jpg" ≠ s ++ ".json" := by
  intro h
  have h1 := congrArg String.length h
  rw [String.length_append, String.length_append] at h1
  have h2 : String.length ".jpg" = 4 := rfl
  have h3 : String.length ".json" = 5 := rfl
  omega

theorem img_ne_meta (client : RtspBackendClient) (camera : Camera) :
    imgFileName client camera ≠ metaFileName client camera :=
  append_jpg_ne_append_json (client.output_dir ++ "/" ++ camera.cameraId)

/- ### Equation lemmas for the health_check method -/

theorem health_check_probe_exn (client : RtspBackendClient) (g : String) (env : Env)
    (fs : FS) (camera : Camera) (msg : String)
    (h : env.probe camera.rtspUrl = ProbeOutcome.exn msg) :
    client.health_check g env fs camera
      = (fs, [Event.probeAttempt camera.rtspUrl], none) := by
  simp [RtspBackendClient.health_check, h]

theorem health_check_frame_ok (client : RtspBackendClient) (g : String) (env : Env)
    (fs : FS) (camera : Camera) (f : Frame)
    (h : env.probe camera.rtspUrl = ProbeOutcome.frame f)
    (h1 : env.imwriteRaises (imgFileName client camera) = false)
    (h2 : env.openImageRaises (imgFileName client camera) = false)
    (h3 : env.metaWriteRaises (metaFileName client camera) = false) :
    client.health_check g env fs camera
      = ((fs.write (imgFileName client camera) (FileContent.image f)).write
           (metaFileName client camera) (FileContent.meta (metaOf camera "OPEN")),
         [Event.probeAttempt camera.rtspUrl,
          Event.writeImage (imgFileName client camera) f,
          Event.writeMeta (metaFileName client camera) (metaOf camera "OPEN"),
          Event.putCamera (g ++ "/cameras/import") (openPutBody camera f)],
         putResultOf (env.putResp (openPutBody camera f))) := by
  simp [RtspBackendClient.health_check, h, h1, h2, h3,
        RtspBackendClient.update_camera, normalizePutBody, openPutBody]

theorem health_check_noFrame_ok (client : RtspBackendClient) (g : String) (env : Env)
    (fs : FS) (camera : Camera)
    (h : env.probe camera.rtspUrl = ProbeOutcome.noFrame)
    (h3 : env.metaWriteRaises (metaFileName client camera) = false) :
    client.health_check g env fs camera
      = (fs.write (metaFileName client camera)
           (FileContent.meta (metaOf camera "UNCONNECTED")),
         [Event.probeAttempt camera.rtspUrl,
          Event.writeMeta (metaFileName client camera) (metaOf camera "UNCONNECTED"),
          Event.putCamera (g ++ "/cameras/import") (unconnectedPutBody camera)],
         putResultOf (env.putResp (unconnectedPutBody camera))) := by
  simp [RtspBackendClient.health_check, h, h3,
        RtspBackendClient.update_camera, normalizePutBody, unconnectedPutBody]

/-- The trace and the returned value of the health_check method do not
depend on the incoming file store (only the resulting store does). -/
theorem health_check_snd_fs_irrel (client : RtspBackendClient) (g : String) (env : Env)
    (camera : Camera) (fs fs' : FS) :
    (client.health_check g env fs camera).2 = (client.health_check g env fs' camera).2 := by
  cases h : env.probe camera.rtspUrl with
  | exn msg => simp [RtspBackendClient.health_check, h]
  | noFrame =>
      by_cases h3 : env.metaWriteRaises (metaFileName client camera)
      · simp [RtspBackendClient.health_check, h, h3]
      · simp [RtspBackendClient.health_check, h, h3]
  | frame f =>
      by_cases h1 : env.imwriteRaises (imgFileName client camera)
      · simp [RtspBackendClient.health_check, h, h1]
      · by_cases h2 : env.openImageRaises (imgFileName client camera)
        · simp [RtspBackendClient.health_check, h, h1, h2]
        · by_cases h3 : env.metaWriteRaises (metaFileName client camera)
          · simp [RtspBackendClient.health_check, h, h1, h2, h3]
          · simp [RtspBackendClient.health_check, h, h1, h2, h3]

/- ### Cycle-level lemmas -/

theorem health_check_all_events (g : String) (client : RtspBackendClient) (env : Env) :
    ∀ (cameras : List Camera) (fs : FS),
      (health_check_all g client env fs cameras).2.1
        = cameras.flatMap (fun c => (client.health_check g env FS.empty c).2.1) := by
  intro cameras
  induction cameras with
  | nil => intro fs; rfl
  | cons c rest ih =>
      intro fs
      have h := congrArg Prod.fst (health_check_snd_fs_irrel client g env c fs FS.empty)
      simp only [health_check_all, List.flatMap_cons, ih]
      rw [h]

theorem health_check_all_logs (g : String) (client : RtspBackendClient) (env : Env) :
    ∀ (cameras : List Camera) (fs : FS),
      (health_check_all g client env fs cameras).2.2
        = cameras.map (fun c => isUpdatedTruthy (client.health_check g env FS.empty c).2.2) := by
  intro cameras
  induction cameras with
  | nil => intro fs; rfl
  | cons c rest ih =>
      intro fs
      have h := congrArg Prod.snd (health_check_snd_fs_irrel client g env c fs FS.empty)
      simp only [health_check_all, List.map_cons, ih]
      rw [h]

theorem fetch_cameras_never_raises (client : RtspBackendClient) (env : Env) :
    ∀ ids : List String, ∃ cams, fetch_cameras client env ids = Except.ok cams := by
  intro ids
  induction ids with
  | nil => exact ⟨[], rfl⟩
  | cons id rest ih =>
      obtain ⟨cams, hc⟩ := ih
      cases hf : env.fetchResp (client.fetchUrl (some id) none) with
      | ok camera =>
          exact ⟨camera :: cams, by
            simp [fetch_cameras, RtspBackendClient.get_camera, truthyStr, hf, hc]⟩
      | notOk code text =>
          exact ⟨cams, by
            simp [fetch_cameras, RtspBackendClient.get_camera, truthyStr, hf, hc]⟩
      | badBody msg =>
          exact ⟨cams, by
            simp [fetch_cameras, RtspBackendClient.get_camera, truthyStr, hf, hc]⟩
      | exn msg =>
          exact ⟨cams, by
            simp [fetch_cameras, RtspBackendClient.get_camera, truthyStr, hf, hc]⟩

theorem fetch_cameras_skips_absent (client : RtspBackendClient) (env : Env) (id : String)
    (h_absent : client.get_camera env (some id) none = Except.ok none) :
    ∀ (ids1 ids2 : List String),
      fetch_cameras client env (ids1 ++ id :: ids2)
        = fetch_cameras client env (ids1 ++ ids2) := by
  intro ids1 ids2
  induction ids1 with
  | nil =>
      cases hrest : fetch_cameras client env ids2 with
      | error e => simp [fetch_cameras, h_absent, hrest]
      | ok cams => simp [fetch_cameras, h_absent, hrest]
  | cons a ids1 ih =>
      cases hga : client.get_camera env (some a) none with
      | error e => simp [fetch_cameras, hga]
      | ok res =>
          cases hrest : fetch_cameras client env (ids1 ++ ids2) with
          | error e => simp [fetch_cameras, hga, ih, hrest]
          | ok cams => simp [fetch_cameras, hga, ih, hrest]

theorem download_characterization {T : Type} (g : String) (client : RtspBackendClient)
    (t : T) (env : Env) (fs : FS) (ids : List String) (cams : List Camera)
    (hl : env.listResp client.listUrl = ListResp.ok ids)
    (hf : fetch_cameras client env ids = Except.ok cams) :
    download_cameras_and_do_health_check g client t env fs
      = Except.ok (health_check_all g client env fs cams) := by
  simp [download_cameras_and_do_health_check, RtspBackendClient.get_all_camera_ids, hl, hf]

/- ### Concrete sample inputs used by witnesses and counterexamples -/

/-- The default backend url of the script. -/
def gU : String := "http://10.8.0.1:8080"

/-- A sample camera record. -/
def sampleCamera : Camera :=
  ⟨"cam1", "rtsp://host/stream", "US", "United States", "Springfield", ["HOT"], "OPEN"⟩

/-- A client with the default backend url and output directory. -/
def clientA : RtspBackendClient := ⟨gU, "health-check"⟩

/-- An environment where every probe yields frame 7 and every backend
call succeeds. -/
def envOpen : Env :=
  ⟨fun _ => ListResp.ok ["cam1"], fun _ => FetchResp.ok sampleCamera,
   fun _ => ProbeOutcome.frame 7, fun _ => false, fun _ => false, fun _ => false,
   fun _ => PutResp.ok true⟩

/-- An environment where every probe connects but yields no frame. -/
def envNoFrame : Env :=
  ⟨fun _ => ListResp.ok ["cam1"], fun _ => FetchResp.ok sampleCamera,
   fun _ => ProbeOutcome.noFrame, fun _ => false, fun _ => false, fun _ => false,
   fun _ => PutResp.ok true⟩

/-- An environment where every probe raises inside
cv2.VideoCapture/read. -/
def envProbeExn : Env :=
  ⟨fun _ => ListResp.ok ["cam1"], fun _ => FetchResp.ok sampleCamera,
   fun _ => ProbeOutcome.exn "cv2 error", fun _ => false, fun _ => false, fun _ => false,
   fun _ => PutResp.ok true⟩

/-- An environment where the id-listing request returns HTTP 500. -/
def envListingDown : Env :=
  ⟨fun _ => ListResp.notOk 500 "Internal Server Error",
   fun _ => FetchResp.ok sampleCamera,
   fun _ => ProbeOutcome.noFrame, fun _ => false, fun _ => false, fun _ => false,
   fun _ => PutResp.ok true⟩

/-- An environment listing three ids where the fetch of id gone returns
HTTP 500 and every other fetch succeeds. -/
def envAbsentMiddle : Env :=
  ⟨fun _ => ListResp.ok ["cam1", "gone", "cam3"],
   fun u => if u = gU ++ "/cameras?id=gone" then FetchResp.notOk 500 "boom"
            else FetchResp.ok sampleCamera,
   fun _ => ProbeOutcome.frame 7, fun _ => false, fun _ => false, fun _ => false,
   fun _ => PutResp.ok true⟩

/- ### Claim theorems -/

/-- C10: the report operation's destination is independent of the client
instance: for every RtspBackendClient, update_camera sends its PUT
request to the module-global rtsp_backend_url (the `global_url`
parameter of the embedding, line 208 of the source), not to the
rtsp_backend_url the instance was constructed with: two clients built
with different urls produce the identical result and the identical PUT
request. -/
theorem c10_report_uses_global_url (g : String) (self1 self2 : RtspBackendClient)
    (env : Env) (camera : PutBody) :
    self1.update_camera g env camera = self2.update_camera g env camera
  ∧ (self1.update_camera g env camera).2
      = [Event.putCamera (g ++ "/cameras/import") (normalizePutBody camera)] :=
  ⟨rfl, rfl⟩

/-- C9: get_camera raises "Stop doing that." exactly when both the
camera id and the camera rtspUrl arguments are supplied (truthy), and in
that case the result is the same for every environment, i.e. no network
request is consulted; on every other input the call returns normally
(a record or absent), never an exception. -/
theorem c9_fetch_raises_only_on_double_argument (self : RtspBackendClient)
    (env env2 : Env) (camera_id camera_rtsp_url : Option String) :
    ((truthyStr camera_id && truthyStr camera_rtsp_url) = true →
        self.get_camera env camera_id camera_rtsp_url = Except.error "Stop doing that."
      ∧ self.get_camera env2 camera_id camera_rtsp_url
          = self.get_camera env camera_id camera_rtsp_url)
  ∧ ((truthyStr camera_id && truthyStr camera_rtsp_url) = false →
        ∃ c : Option Camera,
          self.get_camera env camera_id camera_rtsp_url = Except.ok c) := by
  constructor
  · intro h
    constructor
    · simp [RtspBackendClient.get_camera, h]
    · simp [RtspBackendClient.get_camera, h]
  · intro h
    simp only [RtspBackendClient.get_camera, h, Bool.false_eq_true, if_false]
    cases env.fetchResp (self.fetchUrl camera_id camera_rtsp_url) with
    | ok camera => exact ⟨some camera, rfl⟩
    | notOk code text => exact ⟨none, rfl⟩
    | badBody msg => exact ⟨none, rfl⟩
    | exn msg => exact ⟨none, rfl⟩

/-- C9 witness: with both arguments supplied the call raises
independently of the environment, and with a single argument it returns
normally. -/
theorem c9_fetch_raises_only_on_double_argument_witness :
    (clientA.get_camera envOpen (some "a") (some "rtsp://x")
        = Except.error "Stop doing that."
      ∧ clientA.get_camera envListingDown (some "a") (some "rtsp://x")
          = clientA.get_camera envOpen (some "a") (some "rtsp://x"))
  ∧ (∃ c : Option Camera,
      clientA.get_camera envOpen (some "a") none = Except.ok c) :=
  ⟨(c9_fetch_raises_only_on_double_argument clientA envOpen envListingDown
      (some "a") (some "rtsp://x")).1 (by decide),
   (c9_fetch_raises_only_on_double_argument clientA envOpen envListingDown
      (some "a") none).2 (by decide)⟩

/-- C2 (code bug evaluation): when the id-listing request fails (here
HTTP 500), get_all_camera_ids returns None rather than an empty
sequence, and the cycle then iterates over None and aborts with a
TypeError instead of continuing: the claimed fail-soft behavior does
not happen. -/
theorem c2_listing_failure_aborts_cycle :
    clientA.get_all_camera_ids envListingDown = none
  ∧ download_cameras_and_do_health_check gU clientA (50 : Nat) envListingDown FS.empty
      = Except.error "TypeError: NoneType object is not iterable" :=
  ⟨rfl, rfl⟩

/-- C3 (counterexample): a camera whose probe raises inside
cv2.VideoCapture/read is NOT mapped to UNCONNECTED: the except clause
only prints, so no metadata artifact is written (the store stays empty),
no PUT report is issued, and the method returns None — contradicting
the claim that the resulting status is UNCONNECTED with the
corresponding metadata artifact and report. -/
theorem c3_counterexample_probe_exception_writes_nothing :
    (clientA.health_check gU envProbeExn FS.empty sampleCamera).1.read
        (metaFileName clientA sampleCamera) = none
  ∧ (clientA.health_check gU envProbeExn FS.empty sampleCamera).2.1
      = [Event.probeAttempt "rtsp://host/stream"]
  ∧ (clientA.health_check gU envProbeExn FS.empty sampleCamera).2.2 = none := by
  refine ⟨?_, ?_, ?_⟩ <;> rfl

/-- C3 (amended): any exception during the connection/read step of the
probe is caught and no error propagates out of health_check; however the
camera is then left exactly as it was: the file store is unchanged (so
no UNCONNECTED metadata artifact is produced), the only event is the
probe attempt (no write and no report), and the method returns None,
which the loop logs as a failed health check. -/
theorem c3_probe_exception_contained_without_artifact (client : RtspBackendClient)
    (g : String) (env : Env) (fs : FS) (camera : Camera) (msg : String)
    (h : env.probe camera.rtspUrl = ProbeOutcome.exn msg) :
    client.health_check g env fs camera
      = (fs, [Event.probeAttempt camera.rtspUrl], none) :=
  health_check_probe_exn client g env fs camera msg h

/-- C3 witness: the amended statement evaluated at the sample camera in
the probe-raising environment. -/
theorem c3_probe_exception_contained_without_artifact_witness :
    clientA.health_check gU envProbeExn FS.empty sampleCamera
      = (FS.empty, [Event.probeAttempt sampleCamera.rtspUrl], none) :=
  c3_probe_exception_contained_without_artifact clientA gU envProbeExn FS.empty
    sampleCamera "cv2 error" rfl

/-- C8: the configured worker count has no effect and execution is
strictly sequential: a cycle run with any two values (even of different
types) of the threads option is identical, and the event trace of the
per-camera loop is the in-order concatenation of each camera's own
probe-persist-report events, so one camera's pipeline completes before
the next begins. -/
theorem c8_threads_unused_and_sequential {T1 T2 : Type} (t1 : T1) (t2 : T2)
    (g : String) (client : RtspBackendClient) (env : Env) (fs : FS) :
    download_cameras_and_do_health_check g client t1 env fs
      = download_cameras_and_do_health_check g client t2 env fs
  ∧ ∀ cameras : List Camera,
      (health_check_all g client env fs cameras).2.1
        = cameras.flatMap (fun c => (client.health_check g env FS.empty c).2.1) :=
  ⟨rfl, fun cameras => health_check_all_events g client env cameras fs⟩

/-- C1: for every camera whose probe reads a frame (and whose local
writes do not raise), the resulting status is exactly OPEN: the image
artifact is written with the captured frame, the metadata artifact
carries status OPEN, and the PUT report carries status OPEN; for every
camera whose probe yields no frame, the resulting status is exactly
UNCONNECTED: the image file is untouched, no image write occurs, the
metadata artifact is written with status UNCONNECTED, and the PUT
report carries status UNCONNECTED. -/
theorem c1_probe_outcome_fixes_status_artifacts_report (g : String)
    (client : RtspBackendClient) (env : Env) (fs : FS) (camera : Camera) :
    (∀ f : Frame,
      env.probe camera.rtspUrl = ProbeOutcome.frame f →
      env.imwriteRaises (imgFileName client camera) = false →
      env.openImageRaises (imgFileName client camera) = false →
      env.metaWriteRaises (metaFileName client camera) = false →
        (client.health_check g env fs camera).1.read (imgFileName client camera)
            = some (FileContent.image f)
      ∧ Event.writeImage (imgFileName client camera) f
            ∈ (client.health_check g env fs camera).2.1
      ∧ (client.health_check g env fs camera).1.read (metaFileName client camera)
            = some (FileContent.meta (metaOf camera "OPEN"))
      ∧ Event.putCamera (g ++ "/cameras/import") (openPutBody camera f)
            ∈ (client.health_check g env fs camera).2.1
      ∧ (openPutBody camera f).status = "OPEN")
  ∧ (env.probe camera.rtspUrl = ProbeOutcome.noFrame →
     env.metaWriteRaises (metaFileName client camera) = false →
        (client.health_check g env fs camera).1.read (imgFileName client camera)
            = fs.read (imgFileName client camera)
      ∧ (∀ (n : String) (fr : Frame),
          Event.writeImage n fr ∉ (client.health_check g env fs camera).2.1)
      ∧ (client.health_check g env fs camera).1.read (metaFileName client camera)
            = some (FileContent.meta (metaOf camera "UNCONNECTED"))
      ∧ Event.putCamera (g ++ "/cameras/import") (unconnectedPutBody camera)
            ∈ (client.health_check g env fs camera).2.1
      ∧ (unconnectedPutBody camera).status = "UNCONNECTED") := by
  constructor
  · intro f h hf1 hf2 hf3
    rw [health_check_frame_ok client g env fs camera f h hf1 hf2 hf3]
    refine ⟨?_, ?_, ?_, ?_, rfl⟩
    · rw [FS.read_write_other _ _ _ _ (Ne.symm (img_ne_meta client camera))]
      exact FS.read_write_self fs _ _
    · simp
    · exact FS.read_write_self _ _ _
    · simp
  · intro h hf3
    rw [health_check_noFrame_ok client g env fs camera h hf3]
    refine ⟨?_, ?_, ?_, ?_, rfl⟩
    · exact FS.read_write_other fs _ _ _ (Ne.symm (img_ne_meta client camera))
    · intro n fr
      simp
    · exact FS.read_write_self fs _ _
    · simp

/-- C1 witness: the two halves evaluated at the sample camera, once in
the frame-yielding environment and once in the frameless one. -/
theorem c1_probe_outcome_fixes_status_artifacts_report_witness :
    ((clientA.health_check gU envOpen FS.empty sampleCamera).1.read
         (imgFileName clientA sampleCamera) = some (FileContent.image 7)
      ∧ Event.writeImage (imgFileName clientA sampleCamera) 7
          ∈ (clientA.health_check gU envOpen FS.empty sampleCamera).2.1
      ∧ (clientA.health_check gU envOpen FS.empty sampleCamera).1.read
          (metaFileName clientA sampleCamera)
          = some (FileContent.meta (metaOf sampleCamera "OPEN"))
      ∧ Event.putCamera (gU ++ "/cameras/import") (openPutBody sampleCamera 7)
          ∈ (clientA.health_check gU envOpen FS.empty sampleCamera).2.1
      ∧ (openPutBody sampleCamera 7).status = "OPEN")
  ∧ ((clientA.health_check gU envNoFrame FS.empty sampleCamera).1.read
         (imgFileName clientA sampleCamera)
         = FS.empty.read (imgFileName clientA sampleCamera)
      ∧ (∀ (n : String) (fr : Frame),
          Event.writeImage n fr
            ∉ (clientA.health_check gU envNoFrame FS.empty sampleCamera).2.1)
      ∧ (clientA.health_check gU envNoFrame FS.empty sampleCamera).1.read
          (metaFileName clientA sampleCamera)
          = some (FileContent.meta (metaOf sampleCamera "UNCONNECTED"))
      ∧ Event.putCamera (gU ++ "/cameras/import") (unconnectedPutBody sampleCamera)
          ∈ (clientA.health_check gU envNoFrame FS.empty sampleCamera).2.1
      ∧ (unconnectedPutBody sampleCamera).status = "UNCONNECTED") :=
  ⟨(c1_probe_outcome_fixes_status_artifacts_report gU clientA envOpen FS.empty
      sampleCamera).1 7 rfl rfl rfl rfl,
   (c1_probe_outcome_fixes_status_artifacts_report gU clientA envNoFrame FS.empty
      sampleCamera).2 rfl rfl⟩

/-- Every status string occurring in the trace of one health_check call
is OPEN or UNCONNECTED. -/
theorem health_check_statuses (client : RtspBackendClient) (g : String) (env : Env)
    (fs : FS) (camera : Camera) :
    ∀ s ∈ ((client.health_check g env fs camera).2.1).flatMap eventStatuses,
      s = "OPEN" ∨ s = "UNCONNECTED" := by
  intro s hs
  cases h : env.probe camera.rtspUrl with
  | exn msg =>
      simp [RtspBackendClient.health_check, h, eventStatuses] at hs
  | frame f =>
      by_cases h1 : env.imwriteRaises (imgFileName client camera)
      · simp [RtspBackendClient.health_check, h, h1, eventStatuses] at hs
      · by_cases h2 : env.openImageRaises (imgFileName client camera)
        · simp [RtspBackendClient.health_check, h, h1, h2, eventStatuses] at hs
        · by_cases h3 : env.metaWriteRaises (metaFileName client camera)
          · simp [RtspBackendClient.health_check, h, h1, h2, h3, eventStatuses] at hs
          · simp [RtspBackendClient.health_check, h, h1, h2, h3, eventStatuses,
                  RtspBackendClient.update_camera, normalizePutBody, openPutBody,
                  metaOf] at hs
            tauto
  | noFrame =>
      by_cases h3 : env.metaWriteRaises (metaFileName client camera)
      · simp [RtspBackendClient.health_check, h, h3, eventStatuses] at hs
      · simp [RtspBackendClient.health_check, h, h3, eventStatuses,
              RtspBackendClient.update_camera, normalizePutBody, unconnectedPutBody,
              metaOf] at hs
        tauto

/-- C6: every status string the per-camera loop ever writes to a
metadata artifact or sends in a PUT report is OPEN or UNCONNECTED — in
particular it lies in the four-value vocabulary camera_statuses, and the
probe never emits UNAUTHORIZED or NOT_FOUND. -/
theorem c6_status_vocabulary_invariant (g : String) (client : RtspBackendClient)
    (env : Env) (fs : FS) (cameras : List Camera) (s : String)
    (hs : s ∈ ((health_check_all g client env fs cameras).2.1).flatMap eventStatuses) :
    (s = "OPEN" ∨ s = "UNCONNECTED") ∧ s ∈ camera_statuses := by
  rw [health_check_all_events] at hs
  simp only [List.mem_flatMap] at hs
  obtain ⟨e, ⟨c, hc, hec⟩, hse⟩ := hs
  have hmain := health_check_statuses client g env FS.empty c s
    (List.mem_flatMap.mpr ⟨e, hec, hse⟩)
  refine ⟨hmain, ?_⟩
  rcases hmain with h | h <;> simp [camera_statuses, h]

/-- C6 witness: the invariant evaluated on the status OPEN occurring in
the trace of a one-camera cycle against the frame-yielding
environment. -/
theorem c6_status_vocabulary_invariant_witness :
    ("OPEN" = "OPEN" ∨ "OPEN" = "UNCONNECTED") ∧ "OPEN" ∈ camera_statuses :=
  c6_status_vocabulary_invariant gU clientA envOpen FS.empty [sampleCamera] "OPEN"
    (by decide)

/-- C5: per-camera fault isolation: for every environment (hence for any
combination of probe exceptions, raising local writes, and failing PUT
reports), the per-camera loop still emits exactly one log entry per
camera, its log list and its event trace are pointwise determined by
each camera alone, in order — so one camera's failure never suppresses a
later camera — and whenever the id listing itself succeeds the whole
cycle returns normally instead of aborting. -/
theorem c5_per_camera_isolation {T : Type} (t : T) (g : String)
    (client : RtspBackendClient) (env : Env) (fs : FS) (cameras : List Camera) :
    ((health_check_all g client env fs cameras).2.2).length = cameras.length
  ∧ (health_check_all g client env fs cameras).2.2
      = cameras.map (fun c => isUpdatedTruthy (client.health_check g env FS.empty c).2.2)
  ∧ (health_check_all g client env fs cameras).2.1
      = cameras.flatMap (fun c => (client.health_check g env FS.empty c).2.1)
  ∧ (∀ ids : List String,
      env.listResp client.listUrl = ListResp.ok ids →
      ∃ r, download_cameras_and_do_health_check g client t env fs = Except.ok r) := by
  refine ⟨?_, health_check_all_logs g client env cameras fs,
          health_check_all_events g client env cameras fs, ?_⟩
  · rw [health_check_all_logs g client env cameras fs]
    exact List.length_map cameras _
  · intro ids hl
    obtain ⟨cams, hf⟩ := fetch_cameras_never_raises client env ids
    exact ⟨_, download_characterization g client t env fs ids cams hl hf⟩

/-- C5 witness: the isolation statement evaluated on a one-camera cycle
in the probe-raising environment (the failing camera still yields its
log entry and the cycle completes). -/
theorem c5_per_camera_isolation_witness :
    ((health_check_all gU clientA envProbeExn FS.empty [sampleCamera]).2.2).length
        = [sampleCamera].length
  ∧ (health_check_all gU clientA envProbeExn FS.empty [sampleCamera]).2.2
      = [sampleCamera].map
          (fun c => isUpdatedTruthy (clientA.health_check gU envProbeExn FS.empty c).2.2)
  ∧ (health_check_all gU clientA envProbeExn FS.empty [sampleCamera]).2.1
      = [sampleCamera].flatMap
          (fun c => (clientA.health_check gU envProbeExn FS.empty c).2.1)
  ∧ (∃ r, download_cameras_and_do_health_check gU clientA (50 : Nat) envProbeExn
        FS.empty = Except.ok r) :=
  ⟨(c5_per_camera_isolation (50 : Nat) gU clientA envProbeExn FS.empty [sampleCamera]).1,
   (c5_per_camera_isolation (50 : Nat) gU clientA envProbeExn FS.empty [sampleCamera]).2.1,
   (c5_per_camera_isolation (50 : Nat) gU clientA envProbeExn FS.empty [sampleCamera]).2.2.1,
   (c5_per_camera_isolation (50 : Nat) gU clientA envProbeExn FS.empty
      [sampleCamera]).2.2.2 ["cam1"] rfl⟩

/-- C4: an id whose fetch comes back absent (non-success response or
malformed body) is skipped: the fetch loop over a listing containing it
collects exactly the cameras of the listing without it, and the whole
cycle equals the per-camera processing of those remaining cameras — the
absent id is never probed, produces no artifact, and appears in no
report, while the cycle completes normally. -/
theorem c4_absent_fetch_skipped {T : Type} (t : T) (g : String)
    (client : RtspBackendClient) (env : Env) (fs : FS)
    (ids1 ids2 : List String) (id : String) (cams : List Camera)
    (h_absent : client.get_camera env (some id) none = Except.ok none)
    (h_rest : fetch_cameras client env (ids1 ++ ids2) = Except.ok cams)
    (h_list : env.listResp client.listUrl = ListResp.ok (ids1 ++ id :: ids2)) :
    fetch_cameras client env (ids1 ++ id :: ids2) = Except.ok cams
  ∧ download_cameras_and_do_health_check g client t env fs
      = Except.ok (health_check_all g client env fs cams) := by
  have hskip := fetch_cameras_skips_absent client env id h_absent ids1 ids2
  exact ⟨hskip.trans h_rest,
         download_characterization g client t env fs _ cams h_list (hskip.trans h_rest)⟩

/-- C4 witness: a three-id listing whose middle fetch returns HTTP 500
is processed exactly like the two-id listing without it. -/
theorem c4_absent_fetch_skipped_witness :
    fetch_cameras clientA envAbsentMiddle ["cam1", "gone", "cam3"]
        = Except.ok [sampleCamera, sampleCamera]
  ∧ download_cameras_and_do_health_check gU clientA (50 : Nat) envAbsentMiddle FS.empty
      = Except.ok (health_check_all gU clientA envAbsentMiddle FS.empty
          [sampleCamera, sampleCamera]) :=
  c4_absent_fetch_skipped (50 : Nat) gU clientA envAbsentMiddle FS.empty
    ["cam1"] ["cam3"] "gone" [sampleCamera, sampleCamera] rfl rfl rfl

/-- C7 (counterexample): persisting twice for the same cameraId does
NOT always leave files reflecting only the latest result: after an OPEN
cycle (frame 7) followed by an UNCONNECTED cycle, the metadata file
holds the latest status UNCONNECTED, but the image file still holds
frame 7 from the earlier cycle — the latest result carries no frame,
yet the image artifact is not removed, so its contents reflect the
previous result, not the latest one. -/
theorem c7_counterexample_stale_image_survives :
    (clientA.health_check gU envNoFrame
        (clientA.health_check gU envOpen FS.empty sampleCamera).1 sampleCamera).1.read
        (metaFileName clientA sampleCamera)
      = some (FileContent.meta (metaOf sampleCamera "UNCONNECTED"))
  ∧ (clientA.health_check gU envNoFrame
        (clientA.health_check gU envOpen FS.empty sampleCamera).1 sampleCamera).1.read
        (imgFileName clientA sampleCamera)
      = some (FileContent.image 7)
  ∧ ¬ ((clientA.health_check gU envNoFrame
        (clientA.health_check gU envOpen FS.empty sampleCamera).1 sampleCamera).1.read
        (imgFileName clientA sampleCamera) = none) :=
  ⟨rfl, rfl, by decide⟩

/-- C7 (amended): persisting twice for the same cameraId (two
health_check runs whose probes complete and whose local writes do not
raise) leaves exactly one metadata file and at most one image file for
that camera; the metadata file always reflects the latest result; when
the latest probe reads a frame the image file also holds the latest
frame; but when the latest result is UNCONNECTED a stale image from the
earlier OPEN run may remain. -/
theorem c7_persist_last_write_wins_amended (client : RtspBackendClient)
    (g1 g2 : String) (e1 e2 : Env) (fs0 : FS) (camera : Camera)
    (h0img : fs0.count (imgFileName client camera) ≤ 1)
    (h1 : (∃ f, e1.probe camera.rtspUrl = ProbeOutcome.frame f)
            ∨ e1.probe camera.rtspUrl = ProbeOutcome.noFrame)
    (h2 : (∃ f, e2.probe camera.rtspUrl = ProbeOutcome.frame f)
            ∨ e2.probe camera.rtspUrl = ProbeOutcome.noFrame)
    (hw1 : e1.imwriteRaises (imgFileName client camera) = false)
    (hw2 : e1.openImageRaises (imgFileName client camera) = false)
    (hw3 : e1.metaWriteRaises (metaFileName client camera) = false)
    (hw4 : e2.imwriteRaises (imgFileName client camera) = false)
    (hw5 : e2.openImageRaises (imgFileName client camera) = false)
    (hw6 : e2.metaWriteRaises (metaFileName client camera) = false) :
    (client.health_check g2 e2
        (client.health_check g1 e1 fs0 camera).1 camera).1.count
        (metaFileName client camera) = 1
  ∧ (client.health_check g2 e2
        (client.health_check g1 e1 fs0 camera).1 camera).1.count
        (imgFileName client camera) ≤ 1
  ∧ (∀ f, e2.probe camera.rtspUrl = ProbeOutcome.frame f →
      (client.health_check g2 e2
          (client.health_check g1 e1 fs0 camera).1 camera).1.read
          (metaFileName client camera)
        = some (FileContent.meta (metaOf camera "OPEN"))
      ∧ (client.health_check g2 e2
            (client.health_check g1 e1 fs0 camera).1 camera).1.read
            (imgFileName client camera)
          = some (FileContent.image f))
  ∧ (e2.probe camera.rtspUrl = ProbeOutcome.noFrame →
      (client.health_check g2 e2
          (client.health_check g1 e1 fs0 camera).1 camera).1.read
          (metaFileName client camera)
        = some (FileContent.meta (metaOf camera "UNCONNECTED"))) := by
  have hmi := Ne.symm (img_ne_meta client camera)
  rcases h1 with ⟨f1, hp1⟩ | hp1 <;> rcases h2 with ⟨f2, hp2⟩ | hp2
  · rw [health_check_frame_ok client g1 e1 fs0 camera f1 hp1 hw1 hw2 hw3,
        health_check_frame_ok client g2 e2 _ camera f2 hp2 hw4 hw5 hw6]
    refine ⟨FS.count_write_self _ _ _, ?_, ?_, ?_⟩
    · rw [FS.count_write_other _ _ _ _ hmi, FS.count_write_self]
    · intro f hf
      have hf2 : f = f2 := by
        rw [hp2] at hf
        exact (ProbeOutcome.frame.injEq f f2).mp hf.symm
      subst hf2
      exact ⟨FS.read_write_self _ _ _, by
        rw [FS.read_write_other _ _ _ _ hmi]
        exact FS.read_write_self _ _ _⟩
    · intro hcontra
      rw [hp2] at hcontra
      exact ProbeOutcome.noConfusion hcontra
  · rw [health_check_frame_ok client g1 e1 fs0 camera f1 hp1 hw1 hw2 hw3,
        health_check_noFrame_ok client g2 e2 _ camera hp2 hw6]
    refine ⟨FS.count_write_self _ _ _, ?_, ?_, ?_⟩
    · rw [FS.count_write_other _ _ _ _ hmi, FS.count_write_other _ _ _ _ hmi,
          FS.count_write_self]
    · intro f hf
      rw [hp2] at hf
      exact ProbeOutcome.noConfusion hf
    · intro _
      exact FS.read_write_self _ _ _
  · rw [health_check_noFrame_ok client g1 e1 fs0 camera hp1 hw3,
        health_check_frame_ok client g2 e2 _ camera f2 hp2 hw4 hw5 hw6]
    refine ⟨FS.count_write_self _ _ _, ?_, ?_, ?_⟩
    · rw [FS.count_write_other _ _ _ _ hmi, FS.count_write_self]
    · intro f hf
      have hf2 : f = f2 := by
        rw [hp2] at hf
        exact (ProbeOutcome.frame.injEq f f2).mp hf.symm
      subst hf2
      exact ⟨FS.read_write_self _ _ _, by
        rw [FS.read_write_other _ _ _ _ hmi]
        exact FS.read_write_self _ _ _⟩
    · intro hcontra
      rw [hp2] at hcontra
      exact ProbeOutcome.noConfusion hcontra
  · rw [health_check_noFrame_ok client g1 e1 fs0 camera hp1 hw3,
        health_check_noFrame_ok client g2 e2 _ camera hp2 hw6]
    refine ⟨FS.count_write_self _ _ _, ?_, ?_, ?_⟩
    · rw [FS.count_write_other _ _ _ _ hmi, FS.count_write_other _ _ _ _ hmi]
      exact h0img
    · intro f hf
      rw [hp2] at hf
      exact ProbeOutcome.noConfusion hf
    · intro _
      exact FS.read_write_self _ _ _

/-- C7 witness: the amended statement evaluated on an OPEN run followed
by an UNCONNECTED run from an empty store. -/
theorem c7_persist_last_write_wins_amended_witness :
    (clientA.health_check gU envNoFrame
        (clientA.health_check gU envOpen FS.empty sampleCamera).1 sampleCamera).1.count
        (metaFileName clientA sampleCamera) = 1
  ∧ (clientA.health_check gU envNoFrame
        (clientA.health_check gU envOpen FS.empty sampleCamera).1 sampleCamera).1.count
        (imgFileName clientA sampleCamera) ≤ 1
  ∧ (clientA.health_check gU envNoFrame
        (clientA.health_check gU envOpen FS.empty sampleCamera).1 sampleCamera).1.read
        (metaFileName clientA sampleCamera)
      = some (FileContent.meta (metaOf sampleCamera "UNCONNECTED")) :=
  ⟨(c7_persist_last_write_wins_amended clientA gU gU envOpen envNoFrame FS.empty
      sampleCamera (by decide) (Or.inl ⟨7, rfl⟩) (Or.inr rfl)
      rfl rfl rfl rfl rfl rfl).1,
   (c7_persist_last_write_wins_amended clientA gU gU envOpen envNoFrame FS.empty
      sampleCamera (by decide) (Or.inl ⟨7, rfl⟩) (Or.inr rfl)
      rfl rfl rfl rfl rfl rfl).2.1,
   (c7_persist_last_write_wins_amended clientA gU gU envOpen envNoFrame FS.empty
      sampleCamera (by decide) (Or.inl ⟨7, rfl⟩) (Or.inr rfl)
      rfl rfl rfl rfl rfl rfl).2.2.2 rfl⟩

end RtspHealthChecker
